import Mathlib

/-!
Verification of the multi-window terminal session/state manager of the
`eri-barrett-ai-sdk-boilerplate-cli` repository.

The embedding mirrors the React state of `src/app/page.tsx` (the primary
page component): the `terminals` record keyed by the four terminal ids,
the `confirmationDialog` state, the `activeFullscreen` option and the
`nextZIndex` counter, together with the state-updating handlers
(`bringToFront`, the open/minimize/save handlers, `closeTerminal`,
`handleConfirmClose`, `handleCancelClose`, the fullscreen setters and
`cycleFullscreen`).  A second model embeds the variant page component
stored in `src/types/terminal-types.ts`, whose `cycleFullscreen`
recomputes an eligibility list of open windows (plus the extra V2
instance) on every call.  The group-chat message flow of the
`GroupChatWindow` component (`src/lib/terminal-themes.ts`, second part)
is embedded as explicit sequential list appends, with the pseudo-random
table selections supplied as parameters.

Timestamps (`Date` values and `Date.now()`) are modelled as natural
numbers supplied by the environment at each event.
-/

/-- Sender tags of a chat message, as in the `Message` interface of
`src/app/page.tsx` (user, system, npc, void). -/
inductive Sender where
  | user
  | system
  | npc
  | void
  deriving DecidableEq, Repr

/-- A chat message: `{ id, content, sender, timestamp }`.  The `Date`
timestamp is modelled as a natural number. -/
structure Message where
  id : String
  content : String
  sender : Sender
  timestamp : Nat
  deriving DecidableEq, Repr

/-- The per-window state `TerminalState` of `src/app/page.tsx`:
open flag, toolbar-minimized flag, message log, scroll offset,
creation timestamp and stacking order. -/
structure TerminalState where
  isOpen : Bool
  isToolbarMinimized : Bool
  messages : List Message
  scrollPosition : Nat
  createdAt : Nat
  zIndex : Nat
  deriving DecidableEq, Repr

/-- The fixed set of window identifiers
`type TerminalType = "default" | "npc" | "void" | "group"`. -/
inductive TerminalType where
  | default
  | npc
  | void
  | group
  deriving DecidableEq, Repr

/-- The declaration-ordered list of terminal keys.  This is both the
`terminalTypes` array of `cycleFullscreen` in `src/app/page.tsx` and the
iteration order of `Object.keys(terminals)` in the variant page. -/
def terminalTypes : List TerminalType :=
  [TerminalType.default, TerminalType.npc, TerminalType.void, TerminalType.group]

/-- The `terminals` state object of `src/app/page.tsx`: one
`TerminalState` per key, keys fixed at construction. -/
structure Terminals where
  default : TerminalState
  npc : TerminalState
  void : TerminalState
  group : TerminalState
  deriving DecidableEq, Repr

/-- Field access `terminals[key]`. -/
def Terminals.get (ts : Terminals) : TerminalType → TerminalState
  | TerminalType.default => ts.default
  | TerminalType.npc => ts.npc
  | TerminalType.void => ts.void
  | TerminalType.group => ts.group

/-- The spread update `{ ...prev, [key]: v }`. -/
def Terminals.set (ts : Terminals) : TerminalType → TerminalState → Terminals
  | TerminalType.default, v => { ts with default := v }
  | TerminalType.npc, v => { ts with npc := v }
  | TerminalType.void, v => { ts with void := v }
  | TerminalType.group, v => { ts with group := v }

/-- The `confirmationDialog` state of `src/app/page.tsx`. -/
structure ConfirmationDialogState where
  isOpen : Bool
  terminalType : Option TerminalType
  title : String
  message : String
  deriving DecidableEq, Repr

/-- The empty confirmation-dialog value the page resets to. -/
def emptyConfirmationDialog : ConfirmationDialogState :=
  { isOpen := false, terminalType := none, title := "", message := "" }

/-- The state owned by the `Home` component of `src/app/page.tsx` that
is relevant to the window-lifecycle core: the terminals record, the
confirmation dialog, the active fullscreen id and the z-index counter. -/
structure HomeState where
  terminals : Terminals
  confirmationDialog : ConfirmationDialogState
  activeFullscreen : Option TerminalType
  nextZIndex : Nat
  deriving DecidableEq, Repr

/-- Initial seed content per terminal, from the `getInitialMessage`
switch in `src/app/page.tsx`. -/
def getInitialMessage : TerminalType → String
  | TerminalType.default => "Welcome to the terminal. How can I assist you today?"
  | TerminalType.npc => "Greetings, traveler. How may I assist you on your quest today?"
  | TerminalType.void => "You have connected to the void. What secrets do you seek in the darkness?"
  | TerminalType.group => "Welcome to the group chat."

/-- The seed record content of the three terminal windows in the
`useState` initializer of `src/app/page.tsx` (lines 50-109); the group
entry is initialized with an empty `messages` array. -/
def initialTerminals (ts0 : Nat) : Terminals :=
  { default :=
      { isOpen := false, isToolbarMinimized := false
        messages := [{ id := "1"
                       content := "Welcome to the terminal. How can I assist you today?"
                       sender := Sender.system, timestamp := ts0 }]
        scrollPosition := 0, createdAt := 0, zIndex := 10 }
    npc :=
      { isOpen := false, isToolbarMinimized := false
        messages := [{ id := "1"
                       content := "Greetings, traveler. How may I assist you on your quest today?"
                       sender := Sender.system, timestamp := ts0 }]
        scrollPosition := 0, createdAt := 0, zIndex := 10 }
    void :=
      { isOpen := false, isToolbarMinimized := false
        messages := [{ id := "1"
                       content := "You have connected to the void. What secrets do you seek in the darkness?"
                       sender := Sender.system, timestamp := ts0 }]
        scrollPosition := 0, createdAt := 0, zIndex := 10 }
    group :=
      { isOpen := false, isToolbarMinimized := false
        messages := []
        scrollPosition := 0, createdAt := 0, zIndex := 10 } }

/-- The initial `Home` state: fresh terminals, closed dialog, no
fullscreen window, z-index counter seeded at 20. -/
def initialHomeState (ts0 : Nat) : HomeState :=
  { terminals := initialTerminals ts0
    confirmationDialog := emptyConfirmationDialog
    activeFullscreen := none
    nextZIndex := 20 }

/-- The `bringToFront` handler: stamp the window with the current
counter value and increment the counter. -/
def bringToFront (t : TerminalType) (s : HomeState) : HomeState :=
  { s with
    terminals := s.terminals.set t { s.terminals.get t with zIndex := s.nextZIndex }
    nextZIndex := s.nextZIndex + 1 }

/-- The common body of `openDefaultChat`, `openNPCChat` and
`openVoidChat` (their code is identical up to the key): restore from the
toolbar when minimized, otherwise open and stamp `createdAt`; always
bring to front afterwards.  `now` is the `Date.now()` value read in the
non-minimized branch. -/
def openChat (t : TerminalType) (now : Nat) (s : HomeState) : HomeState :=
  let cur := s.terminals.get t
  let s1 :=
    if cur.isToolbarMinimized then
      { s with terminals := s.terminals.set t { cur with isToolbarMinimized := false, isOpen := true } }
    else
      { s with terminals := s.terminals.set t { cur with isOpen := true, createdAt := now } }
  bringToFront t s1

/-- The inline toolbar handler restoring the group chat (there is no
fresh-open entry point for the group window in the page): clear the
minimized flag, set open, bring to front. -/
def restoreGroupFromToolbar (s : HomeState) : HomeState :=
  let cur := s.terminals.get TerminalType.group
  let s1 : HomeState :=
    { s with terminals := s.terminals.set TerminalType.group { cur with isToolbarMinimized := false, isOpen := true } }
  bringToFront TerminalType.group s1

/-- The common body of the four `minimize...ToToolbar` handlers: set the
minimized flag, clear the open flag, and clear `activeFullscreen` when
the minimized window was the active fullscreen window. -/
def minimizeToToolbar (t : TerminalType) (s : HomeState) : HomeState :=
  let cur := s.terminals.get t
  { s with
    terminals := s.terminals.set t { cur with isToolbarMinimized := true, isOpen := false }
    activeFullscreen := if s.activeFullscreen = some t then none else s.activeFullscreen }

/-- The `closeTerminal` handler: raise the confirmation dialog for the
given terminal without mutating any window record. -/
def closeTerminal (t : TerminalType) (s : HomeState) : HomeState :=
  { s with confirmationDialog :=
      { isOpen := true, terminalType := some t, title := "Close Terminal"
        message := "This will permanently close the terminal and destroy all context. Are you sure you want to continue?" } }

/-- The `handleConfirmClose` handler: when a target is pending, reset
its record (closed, not minimized, single seed message, scroll 0) and
clear the dialog; otherwise return unchanged.  `now` is the timestamp
of the freshly constructed seed message. -/
def handleConfirmClose (now : Nat) (s : HomeState) : HomeState :=
  match s.confirmationDialog.terminalType with
  | none => s
  | some t =>
    let cur := s.terminals.get t
    let seed : Message :=
      { id := "1", content := getInitialMessage t, sender := Sender.system, timestamp := now }
    let reset : TerminalState :=
      { cur with isOpen := false, isToolbarMinimized := false, messages := [seed], scrollPosition := 0 }
    { s with
      terminals := s.terminals.set t reset
      confirmationDialog := emptyConfirmationDialog }

/-- The `handleCancelClose` handler: clear the dialog only. -/
def handleCancelClose (s : HomeState) : HomeState :=
  { s with confirmationDialog := emptyConfirmationDialog }

/-- The common body of the four `set...Fullscreen` handlers: entering
sets the active id and brings the window to front; exiting clears the
active id only when it currently names this window. -/
def setFullscreen (t : TerminalType) (isFullscreen : Bool) (s : HomeState) : HomeState :=
  if isFullscreen then
    bringToFront t { s with activeFullscreen := some t }
  else if s.activeFullscreen = some t then
    { s with activeFullscreen := none }
  else
    s

/-- Cycle direction argument of `cycleFullscreen`. -/
inductive Direction where
  | next
  | prev
  deriving DecidableEq, Repr

/-- Position of a key in the fixed `terminalTypes` array
(`terminalTypes.indexOf(activeFullscreen)`). -/
def tIndex : TerminalType → Nat
  | TerminalType.default => 0
  | TerminalType.npc => 1
  | TerminalType.void => 2
  | TerminalType.group => 3

/-- One index step in the fixed four-entry array.  For `prev` the
source computes `(i - 1 + 4) % 4` on JavaScript numbers, which equals
`(i + 3) % 4` for the non-negative indices that occur. -/
def stepIndex (d : Direction) (i : Nat) : Nat :=
  match d with
  | Direction.next => (i + 1) % 4
  | Direction.prev => (i + 3) % 4

/-- The `cycleFullscreen` handler of the primary page
(`src/app/page.tsx` lines 390-421): from the active id position in the
fixed `terminalTypes` array, try the adjacent index in the requested
direction; if that terminal is open, activate and focus it; otherwise
try one more step; if that also fails, do nothing. -/
def cycleFullscreen (d : Direction) (s : HomeState) : HomeState :=
  match s.activeFullscreen with
  | none => s
  | some active =>
    let currentIndex := tIndex active
    let nextIndex := stepIndex d currentIndex
    let k1 := terminalTypes.getD nextIndex TerminalType.default
    if (s.terminals.get k1).isOpen then
      bringToFront k1 { s with activeFullscreen := some k1 }
    else
      let nextIndex2 := stepIndex d nextIndex
      let k2 := terminalTypes.getD nextIndex2 TerminalType.default
      if (s.terminals.get k2).isOpen then
        bringToFront k2 { s with activeFullscreen := some k2 }
      else
        s

/-- The common body of the four `save...State` handlers: skip the
update when both the stored message list and the stored scroll position
already equal the reported ones, otherwise replace them.  The source
compares the message array by reference identity; identity of immutable
snapshots is modelled as structural equality. -/
def saveTerminalState (t : TerminalType) (msgs : List Message) (scroll : Nat)
    (s : HomeState) : HomeState :=
  let cur := s.terminals.get t
  if cur.messages = msgs ∧ cur.scrollPosition = scroll then
    s
  else
    { s with terminals := s.terminals.set t { cur with messages := msgs, scrollPosition := scroll } }

-- Basic rewriting lemmas for the record operations.

theorem Terminals.get_set_same (ts : Terminals) (t : TerminalType) (v : TerminalState) :
    (ts.set t v).get t = v := by
  cases t <;> rfl

theorem Terminals.get_set_other (ts : Terminals) (t u : TerminalType) (v : TerminalState)
    (h : u ≠ t) : (ts.set t v).get u = ts.get u := by
  cases t <;> cases u <;> first | rfl | exact absurd rfl h

theorem Terminals.get_set (ts : Terminals) (t u : TerminalType) (v : TerminalState) :
    (ts.set t v).get u = if u = t then v else ts.get u := by
  by_cases h : u = t
  · subst h; simp [Terminals.get_set_same]
  · simp [h, Terminals.get_set_other ts t u v h]

-- Componentwise characterization of bringToFront.

theorem bringToFront_get (t u : TerminalType) (s : HomeState) :
    (bringToFront t s).terminals.get u =
      if u = t then { s.terminals.get t with zIndex := s.nextZIndex } else s.terminals.get u := by
  simp [bringToFront, Terminals.get_set]

theorem bringToFront_activeFullscreen (t : TerminalType) (s : HomeState) :
    (bringToFront t s).activeFullscreen = s.activeFullscreen := rfl

theorem bringToFront_confirmationDialog (t : TerminalType) (s : HomeState) :
    (bringToFront t s).confirmationDialog = s.confirmationDialog := rfl

theorem bringToFront_nextZIndex (t : TerminalType) (s : HomeState) :
    (bringToFront t s).nextZIndex = s.nextZIndex + 1 := rfl

/-- User events and timer callbacks that drive the page state.  Each
event carries the environment inputs (timestamps, reported snapshots)
of the corresponding handler. -/
inductive Event where
  | openT (t : TerminalType) (now : Nat)
  | restoreGroup
  | minimize (t : TerminalType)
  | requestClose (t : TerminalType)
  | confirm (now : Nat)
  | cancel
  | setFS (t : TerminalType) (isFullscreen : Bool)
  | cycle (d : Direction)
  | save (t : TerminalType) (msgs : List Message) (scroll : Nat)

/-- One UI step.  Each handler fires only when its control is actually
reachable in the rendered page, so the guards mirror the UI structure:
the confirmation dialog is a full-viewport modal overlay, hence every
pointer-driven handler requires the dialog to be closed; the three
open buttons exist only for the non-group terminals, and the group chat
is opened solely through its toolbar-restore chip; the minimize and
fullscreen controls live inside a rendered (open) window; the close
chips of the taskbar require the taskbar (no fullscreen window) and the
target chip (terminal minimized); the dialog buttons require the dialog;
the save callbacks are timer/unmount driven with the message snapshot
taken from the window component, whose internal list is seeded non-empty
and append-only.  When the guard fails the state is unchanged. -/
def applyEvent : Event → HomeState → HomeState
  | Event.openT t now, s =>
    if s.confirmationDialog.isOpen = false ∧ t ≠ TerminalType.group then openChat t now s else s
  | Event.restoreGroup, s =>
    if s.confirmationDialog.isOpen = false ∧
        (s.terminals.get TerminalType.group).isToolbarMinimized = true then
      restoreGroupFromToolbar s
    else s
  | Event.minimize t, s =>
    if s.confirmationDialog.isOpen = false ∧ (s.terminals.get t).isOpen = true then
      minimizeToToolbar t s
    else s
  | Event.requestClose t, s =>
    if s.confirmationDialog.isOpen = false ∧ s.activeFullscreen = none ∧
        (s.terminals.get t).isToolbarMinimized = true then
      closeTerminal t s
    else s
  | Event.confirm now, s =>
    if s.confirmationDialog.isOpen = true then handleConfirmClose now s else s
  | Event.cancel, s =>
    if s.confirmationDialog.isOpen = true then handleCancelClose s else s
  | Event.setFS t b, s =>
    if s.confirmationDialog.isOpen = false ∧ (s.terminals.get t).isOpen = true then
      setFullscreen t b s
    else s
  | Event.cycle d, s =>
    if s.confirmationDialog.isOpen = false then cycleFullscreen d s else s
  | Event.save t msgs scroll, s =>
    if msgs ≠ [] then saveTerminalState t msgs scroll s else s

/-- States reachable from the initial page state through UI events. -/
inductive Reachable : HomeState → Prop where
  | init (ts0 : Nat) : Reachable (initialHomeState ts0)
  | step {s : HomeState} (e : Event) : Reachable s → Reachable (applyEvent e s)

/-- The combined state invariant of the page: the active fullscreen
window is open; a pending close target implies no fullscreen window
(requests are only raised from the taskbar, which is hidden during
fullscreen, and the modal dialog blocks fullscreen entry); the dialog
open flag and target travel together; the three terminal records always
hold a non-empty message log, and the group record holds one whenever
the group window is open or minimized; every stamped z-index is below
the allocator counter. -/
structure FullInv (s : HomeState) : Prop where
  active_isOpen : ∀ w, s.activeFullscreen = some w → (s.terminals.get w).isOpen = true
  pending_noFullscreen : ∀ w, s.confirmationDialog.terminalType = some w →
    s.activeFullscreen = none
  closed_noTarget : s.confirmationDialog.isOpen = false →
    s.confirmationDialog.terminalType = none
  open_hasTarget : s.confirmationDialog.isOpen = true →
    s.confirmationDialog.terminalType ≠ none
  msgs_default : (s.terminals.get TerminalType.default).messages ≠ []
  msgs_npc : (s.terminals.get TerminalType.npc).messages ≠ []
  msgs_void : (s.terminals.get TerminalType.void).messages ≠ []
  msgs_group : (s.terminals.get TerminalType.group).isOpen = true ∨
      (s.terminals.get TerminalType.group).isToolbarMinimized = true →
    (s.terminals.get TerminalType.group).messages ≠ []
  zIndex_lt : ∀ t, (s.terminals.get t).zIndex < s.nextZIndex

theorem fullInv_bringToFront (t : TerminalType) (s : HomeState) (h : FullInv s) :
    FullInv (bringToFront t s) := by
  obtain ⟨A, B, C0, C1, Dd, Dn, Dv, E, F⟩ := h
  refine ⟨?_, ?_, ?_, ?_, ?_, ?_, ?_, ?_, ?_⟩ <;>
    simp only [bringToFront_get, bringToFront_activeFullscreen, bringToFront_confirmationDialog,
      bringToFront_nextZIndex]
  · intro w hw
    split <;> simp_all
  · exact B
  · exact C0
  · exact C1
  · split <;> simp_all
  · split <;> simp_all
  · split <;> simp_all
  · split <;> simp_all
  · intro u
    split
    · dsimp only
      omega
    · exact Nat.lt_succ_of_lt (F u)

theorem fullInv_openChat (t : TerminalType) (now : Nat) (s : HomeState)
    (h : FullInv s) (hg : t ≠ TerminalType.group) : FullInv (openChat t now s) := by
  have h9 := h.zIndex_lt
  obtain ⟨A, B, C0, C1, Dd, Dn, Dv, E, F⟩ := h
  unfold openChat
  apply fullInv_bringToFront
  dsimp only
  split <;>
  · refine ⟨?_, ?_, ?_, ?_, ?_, ?_, ?_, ?_, ?_⟩ <;>
      simp only [Terminals.get_set]
    · intro w hw
      split <;> simp_all
    · exact B
    · exact C0
    · exact C1
    · split <;> simp_all
    · split <;> simp_all
    · split <;> simp_all
    · split <;> simp_all
    · intro u
      split <;> simp_all

theorem fullInv_restoreGroup (s : HomeState) (h : FullInv s)
    (hmin : (s.terminals.get TerminalType.group).isToolbarMinimized = true) :
    FullInv (restoreGroupFromToolbar s) := by
  obtain ⟨A, B, C0, C1, Dd, Dn, Dv, E, F⟩ := h
  unfold restoreGroupFromToolbar
  apply fullInv_bringToFront
  refine ⟨?_, ?_, ?_, ?_, ?_, ?_, ?_, ?_, ?_⟩ <;> (try dsimp only) <;>
    (try simp only [Terminals.get_set])
  · intro w hw
    split <;> simp_all
  · exact B
  · exact C0
  · exact C1
  · split <;> simp_all
  · split <;> simp_all
  · split <;> simp_all
  · intro hflags
    simp_all [E (Or.inr hmin)]
  · intro u
    split <;> simp_all

theorem fullInv_minimize (t : TerminalType) (s : HomeState) (h : FullInv s)
    (hopen : (s.terminals.get t).isOpen = true) : FullInv (minimizeToToolbar t s) := by
  obtain ⟨A, B, C0, C1, Dd, Dn, Dv, E, F⟩ := h
  unfold minimizeToToolbar
  refine ⟨?_, ?_, ?_, ?_, ?_, ?_, ?_, ?_, ?_⟩ <;> (try dsimp only) <;>
    (try simp only [Terminals.get_set])
  · intro w hw
    split at hw
    · exact absurd hw (by simp)
    next hne =>
      have hwt : ¬w = t := fun he => hne (he ▸ hw)
      simp only [if_neg hwt]
      exact A w hw
  · intro w hw
    have hB := B w hw
    simp [hB]
  · exact C0
  · exact C1
  · split <;> simp_all
  · split <;> simp_all
  · split <;> simp_all
  · intro hflags
    split at hflags <;> split <;> simp_all
  · intro u
    split <;> simp_all

theorem fullInv_requestClose (t : TerminalType) (s : HomeState) (h : FullInv s)
    (hact : s.activeFullscreen = none) : FullInv (closeTerminal t s) := by
  obtain ⟨A, B, C0, C1, Dd, Dn, Dv, E, F⟩ := h
  unfold closeTerminal
  refine ⟨A, ?_, ?_, ?_, Dd, Dn, Dv, E, F⟩
  · intro w _
    exact hact
  · intro hco
    exact absurd hco (by simp)
  · intro _
    simp

theorem fullInv_cancel (s : HomeState) (h : FullInv s) : FullInv (handleCancelClose s) := by
  obtain ⟨A, B, C0, C1, Dd, Dn, Dv, E, F⟩ := h
  unfold handleCancelClose
  refine ⟨A, ?_, ?_, ?_, Dd, Dn, Dv, E, F⟩
  · intro w hw
    exact absurd hw (by simp [emptyConfirmationDialog])
  · intro _
    simp [emptyConfirmationDialog]
  · intro hco
    exact absurd hco (by simp [emptyConfirmationDialog])

theorem fullInv_confirm (now : Nat) (s : HomeState) (h : FullInv s) :
    FullInv (handleConfirmClose now s) := by
  obtain ⟨A, B, C0, C1, Dd, Dn, Dv, E, F⟩ := h
  unfold handleConfirmClose
  cases hd : s.confirmationDialog.terminalType with
  | none => exact ⟨A, B, C0, C1, Dd, Dn, Dv, E, F⟩
  | some t =>
    have hact := B t hd
    refine ⟨?_, ?_, ?_, ?_, ?_, ?_, ?_, ?_, ?_⟩ <;> (try dsimp only) <;>
      (try simp only [Terminals.get_set])
    · intro w hw
      rw [hact] at hw
      exact absurd hw (by simp)
    · intro w hw
      exact absurd hw (by simp [emptyConfirmationDialog])
    · intro _
      simp [emptyConfirmationDialog]
    · intro hco
      exact absurd hco (by simp [emptyConfirmationDialog])
    · split <;> simp_all
    · split <;> simp_all
    · split <;> simp_all
    · intro hflags
      split at hflags <;> simp_all
    · intro u
      split <;> simp_all

theorem fullInv_setFullscreen (t : TerminalType) (b : Bool) (s : HomeState) (h : FullInv s)
    (hopen : (s.terminals.get t).isOpen = true)
    (hdlg : s.confirmationDialog.isOpen = false) : FullInv (setFullscreen t b s) := by
  obtain ⟨A, B, C0, C1, Dd, Dn, Dv, E, F⟩ := h
  have htt := C0 hdlg
  unfold setFullscreen
  split
  · apply fullInv_bringToFront
    refine ⟨?_, ?_, C0, C1, Dd, Dn, Dv, E, F⟩
    · intro w hw
      dsimp only at hw
      cases hw
      exact hopen
    · intro w hw
      rw [htt] at hw
      exact absurd hw (by simp)
  · split
    · refine ⟨?_, ?_, C0, C1, Dd, Dn, Dv, E, F⟩
      · intro w hw
        exact absurd hw (by simp)
      · intro w _
        rfl
    · exact ⟨A, B, C0, C1, Dd, Dn, Dv, E, F⟩

theorem fullInv_cycle (d : Direction) (s : HomeState) (h : FullInv s)
    (hdlg : s.confirmationDialog.isOpen = false) : FullInv (cycleFullscreen d s) := by
  obtain ⟨A, B, C0, C1, Dd, Dn, Dv, E, F⟩ := h
  have htt := C0 hdlg
  unfold cycleFullscreen
  cases ha : s.activeFullscreen with
  | none => exact ⟨A, B, C0, C1, Dd, Dn, Dv, E, F⟩
  | some a =>
    dsimp only
    split
    next hk1 =>
      apply fullInv_bringToFront
      refine ⟨?_, ?_, C0, C1, Dd, Dn, Dv, E, F⟩
      · intro w hw
        dsimp only at hw
        cases hw
        exact hk1
      · intro w hw
        rw [htt] at hw
        exact absurd hw (by simp)
    next =>
      split
      next hk2 =>
        apply fullInv_bringToFront
        refine ⟨?_, ?_, C0, C1, Dd, Dn, Dv, E, F⟩
        · intro w hw
          dsimp only at hw
          cases hw
          exact hk2
        · intro w hw
          rw [htt] at hw
          exact absurd hw (by simp)
      next => exact ⟨A, B, C0, C1, Dd, Dn, Dv, E, F⟩

theorem fullInv_save (t : TerminalType) (msgs : List Message) (scroll : Nat) (s : HomeState)
    (h : FullInv s) (hne : msgs ≠ []) : FullInv (saveTerminalState t msgs scroll s) := by
  obtain ⟨A, B, C0, C1, Dd, Dn, Dv, E, F⟩ := h
  unfold saveTerminalState
  dsimp only
  split
  · exact ⟨A, B, C0, C1, Dd, Dn, Dv, E, F⟩
  · refine ⟨?_, B, C0, C1, ?_, ?_, ?_, ?_, ?_⟩ <;> (try dsimp only) <;>
      (try simp only [Terminals.get_set])
    · intro w hw
      split <;> simp_all [A w hw]
    · split <;> simp_all
    · split <;> simp_all
    · split <;> simp_all
    · intro hflags
      split at hflags <;> simp_all
    · intro u
      split <;> simp_all

theorem fullInv_applyEvent (e : Event) (s : HomeState) (h : FullInv s) :
    FullInv (applyEvent e s) := by
  cases e with
  | openT t now =>
    simp only [applyEvent]
    split
    next hc => exact fullInv_openChat t now s h hc.2
    next => exact h
  | restoreGroup =>
    simp only [applyEvent]
    split
    next hc => exact fullInv_restoreGroup s h hc.2
    next => exact h
  | minimize t =>
    simp only [applyEvent]
    split
    next hc => exact fullInv_minimize t s h hc.2
    next => exact h
  | requestClose t =>
    simp only [applyEvent]
    split
    next hc => exact fullInv_requestClose t s h hc.2.1
    next => exact h
  | confirm now =>
    simp only [applyEvent]
    split
    next => exact fullInv_confirm now s h
    next => exact h
  | cancel =>
    simp only [applyEvent]
    split
    next => exact fullInv_cancel s h
    next => exact h
  | setFS t b =>
    simp only [applyEvent]
    split
    next hc => exact fullInv_setFullscreen t b s h hc.2 hc.1
    next => exact h
  | cycle d =>
    simp only [applyEvent]
    split
    next hc => exact fullInv_cycle d s h hc
    next => exact h
  | save t msgs scroll =>
    simp only [applyEvent]
    split
    next hc => exact fullInv_save t msgs scroll s h hc
    next => exact h

theorem fullInv_initial (ts0 : Nat) : FullInv (initialHomeState ts0) := by
  refine ⟨?_, ?_, ?_, ?_, ?_, ?_, ?_, ?_, ?_⟩ <;>
    simp [initialHomeState, initialTerminals, emptyConfirmationDialog, Terminals.get]
  intro t
  cases t <;> simp [Terminals.get]

/-- Every reachable page state satisfies the combined invariant. -/
theorem reachable_fullInv {s : HomeState} (h : Reachable s) : FullInv s := by
  induction h with
  | init ts0 => exact fullInv_initial ts0
  | step e _ ih => exact fullInv_applyEvent e _ ih

/-!
Variant page component stored in `src/types/terminal-types.ts` (second
part of the file).  It adds an extra independently managed window
instance (`TermWinV2`, key `v2`) and replaces `cycleFullscreen` with an
eligibility-list traversal.
-/

/-- The `ExtendedTerminalType` of the variant page: the four terminal
keys plus the extra `v2` instance. -/
inductive ExtKey where
  | term (t : TerminalType)
  | v2
  deriving DecidableEq, Repr

/-- The state of the variant `Home` component relevant to fullscreen
cycling: the terminals record, the active fullscreen key, the z-index
counter, and the open flag and z-index of the extra V2 window. -/
structure HomeStateV where
  terminals : Terminals
  activeFullscreen : Option ExtKey
  nextZIndex : Nat
  isTermWinV2Open : Bool
  termWinV2ZIndex : Nat
  deriving DecidableEq, Repr

/-- The variant `bringToFront` for the four terminal windows. -/
def bringToFrontV (t : TerminalType) (s : HomeStateV) : HomeStateV :=
  { s with
    terminals := s.terminals.set t { s.terminals.get t with zIndex := s.nextZIndex }
    nextZIndex := s.nextZIndex + 1 }

/-- The `bringV2ToFront` handler of the variant page. -/
def bringV2ToFront (s : HomeStateV) : HomeStateV :=
  { s with termWinV2ZIndex := s.nextZIndex, nextZIndex := s.nextZIndex + 1 }

/-- The `openTerminalKeys` computation of the variant `cycleFullscreen`:
`Object.keys(terminals).filter(key => terminals[key].isOpen)`, in
declaration order. -/
def openTerminalKeys (s : HomeStateV) : List TerminalType :=
  terminalTypes.filter (fun k => (s.terminals.get k).isOpen)

/-- The `availableFullscreenKeys` list of the variant `cycleFullscreen`:
the open terminals, followed by the key of the V2 window when it is
open. -/
def availableFullscreenKeys (s : HomeStateV) : List ExtKey :=
  (openTerminalKeys s).map ExtKey.term ++ (if s.isTermWinV2Open then [ExtKey.v2] else [])

/-- The `cycleFullscreen` of the variant page
(`src/types/terminal-types.ts` lines 443-464): recompute the available
keys; return unchanged when no window is fullscreen, fewer than two keys
are available, or the active key is not among them (the source checks
`indexOf === -1`); otherwise step one index with wraparound (`prev`
computes `(i - 1 + n) % n` on JavaScript numbers, which equals
`(i + n - 1) % n` here), activate the key found there, and bring the
matching window to the front. -/
def cycleFullscreenV (d : Direction) (s : HomeStateV) : HomeStateV :=
  let keys := availableFullscreenKeys s
  match s.activeFullscreen with
  | none => s
  | some active =>
    if keys.length < 2 then s
    else
      let currentIndex := keys.indexOf active
      if currentIndex < keys.length then
        let nextIndex :=
          match d with
          | Direction.next => (currentIndex + 1) % keys.length
          | Direction.prev => (currentIndex + keys.length - 1) % keys.length
        match keys.getD nextIndex ExtKey.v2 with
        | ExtKey.v2 => bringV2ToFront { s with activeFullscreen := some ExtKey.v2 }
        | ExtKey.term t => bringToFrontV t { s with activeFullscreen := some (ExtKey.term t) }
      else s

/-!
The group-chat message flow of `GroupChatWindow`
(`src/lib/terminal-themes.ts`, second part).  The component keeps its
own message list; `handleSendMessage` appends the user message, then a
first delayed callback appends one npc-sender reply, and a second
delayed callback nested inside the first appends one void-sender reply.
The `Math.random()` table selections are supplied as index parameters
and the `Date.now()` readings of the three append sites as timestamps.
-/

/-- The single seed message the group-chat component starts with when
mounted without saved messages. -/
def groupSeedMessage (ts : Nat) : Message :=
  { id := "1"
    content := "Welcome to the group chat. Multiple AI assistants are available to help you."
    sender := Sender.system, timestamp := ts }

/-- The canned npc response table of `GroupChatWindow.handleSendMessage`. -/
def npcResponses : List String :=
  [ "I\x27ve been in this village for many years. I can tell you about our local history."
  , "You\x27ll need better equipment if you want to venture into the forest."
  , "Have you spoken with the blacksmith yet? He might have a quest for you."
  , "Rumors say there\x27s a hidden treasure in the mountains to the north."
  , "I don\x27t have any more quests for you at this time. Check back later." ]

/-- The canned void response table of `GroupChatWindow.handleSendMessage`. -/
def voidResponses : List String :=
  [ "The void whispers secrets that mortal minds cannot comprehend."
  , "Stars die and are born in the endless expanse. Your question is but a fleeting moment."
  , "The patterns you seek are illusions. Embrace the chaos of the cosmos."
  , "Time is a construct. In the void, all moments exist simultaneously."
  , "Your consciousness is a mere ripple in the infinite darkness." ]

/-- The user message built by `handleSendMessage` from the input value:
id is the `Date.now()` reading as a string. -/
def groupUserMessage (input : String) (t0 : Nat) : Message :=
  { id := toString t0, content := input, sender := Sender.user, timestamp := t0 }

/-- The npc reply appended by the first delayed callback: a random table
entry, id one above the `Date.now()` reading of the callback. -/
def groupNpcReply (pick t1 : Nat) : Message :=
  { id := toString (t1 + 1), content := npcResponses.getD pick ""
    sender := Sender.npc, timestamp := t1 }

/-- The void reply appended by the nested second delayed callback: a
random table entry, id two above the `Date.now()` reading. -/
def groupVoidReply (pick t2 : Nat) : Message :=
  { id := toString (t2 + 2), content := voidResponses.getD pick ""
    sender := Sender.void, timestamp := t2 }

/-- The early-return test of `handleSendMessage`: `!inputValue.trim()`
is truthy exactly when the input consists of whitespace only, embedded
as a direct all-whitespace check on the characters (well-founded
`String.trim` does not evaluate inside the kernel). -/
def inputIsBlank (input : String) : Bool :=
  input.data.all Char.isWhitespace

/-- The complete effect of `handleSendMessage` on the component message
list once both delayed callbacks have fired, with no other append in
between: nothing when the trimmed input is empty (the early return also
schedules no callbacks), otherwise the user message, then the npc reply,
then the void reply, appended in this order — the second timer is
started inside the first callback, so its append is strictly later. -/
def groupSendSequence (input : String) (t0 t1 t2 pickNpc pickVoid : Nat)
    (msgs : List Message) : List Message :=
  if inputIsBlank input then msgs
  else ((msgs ++ [groupUserMessage input t0]) ++ [groupNpcReply pickNpc t1])
        ++ [groupVoidReply pickVoid t2]

-- Componentwise helper lemmas for the open, minimize and confirm operations.

theorem bringToFront_get_isOpen (t u : TerminalType) (s : HomeState) :
    ((bringToFront t s).terminals.get u).isOpen = (s.terminals.get u).isOpen := by
  rw [bringToFront_get]
  split
  next h => subst h; rfl
  next => rfl

theorem openChat_messages (t : TerminalType) (now : Nat) (s : HomeState) (u : TerminalType) :
    ((openChat t now s).terminals.get u).messages = (s.terminals.get u).messages := by
  unfold openChat bringToFront
  dsimp only
  split <;> by_cases hu : u = t <;> simp [Terminals.get_set, hu]

theorem openChat_scroll (t : TerminalType) (now : Nat) (s : HomeState) (u : TerminalType) :
    ((openChat t now s).terminals.get u).scrollPosition = (s.terminals.get u).scrollPosition := by
  unfold openChat bringToFront
  dsimp only
  split <;> by_cases hu : u = t <;> simp [Terminals.get_set, hu]

theorem minimize_messages (t : TerminalType) (s : HomeState) (u : TerminalType) :
    ((minimizeToToolbar t s).terminals.get u).messages = (s.terminals.get u).messages := by
  unfold minimizeToToolbar
  dsimp only
  by_cases hu : u = t <;> simp [Terminals.get_set, hu]

theorem minimize_scroll (t : TerminalType) (s : HomeState) (u : TerminalType) :
    ((minimizeToToolbar t s).terminals.get u).scrollPosition =
      (s.terminals.get u).scrollPosition := by
  unfold minimizeToToolbar
  dsimp only
  by_cases hu : u = t <;> simp [Terminals.get_set, hu]

theorem minimize_isToolbarMinimized (t : TerminalType) (s : HomeState) :
    ((minimizeToToolbar t s).terminals.get t).isToolbarMinimized = true := by
  unfold minimizeToToolbar
  dsimp only
  simp [Terminals.get_set_same]

theorem confirmClose_record_reset (s : HomeState) (w : TerminalType) (now : Nat)
    (hpending : s.confirmationDialog.terminalType = some w) :
    (handleConfirmClose now s).terminals.get w =
      { s.terminals.get w with
        isOpen := false
        isToolbarMinimized := false
        messages := [{ id := "1", content := getInitialMessage w
                       sender := Sender.system, timestamp := now }]
        scrollPosition := 0 } ∧
    (handleConfirmClose now s).confirmationDialog = emptyConfirmationDialog := by
  simp only [handleConfirmClose, hpending]
  exact ⟨Terminals.get_set_same _ _ _, trivial⟩

-- Concrete states used as inputs of counterexamples and witnesses, each
-- built by running events from the initial state (hence reachable).

/-- Default and npc terminals opened, then the default terminal put in
fullscreen. -/
def exStateDN : HomeState :=
  applyEvent (Event.setFS TerminalType.default true)
    (applyEvent (Event.openT TerminalType.npc 1)
      (applyEvent (Event.openT TerminalType.default 0) (initialHomeState 0)))

theorem exStateDN_reachable : Reachable exStateDN :=
  Reachable.step _ (Reachable.step _ (Reachable.step _ (Reachable.init 0)))

/-- Default and npc terminals opened, then the npc terminal put in
fullscreen. -/
def exStateND : HomeState :=
  applyEvent (Event.setFS TerminalType.npc true)
    (applyEvent (Event.openT TerminalType.npc 1)
      (applyEvent (Event.openT TerminalType.default 0) (initialHomeState 0)))

theorem exStateND_reachable : Reachable exStateND :=
  Reachable.step _ (Reachable.step _ (Reachable.step _ (Reachable.init 0)))

/-- The npc terminal opened, minimized to the toolbar, then its close
chip clicked: a confirmation request is pending. -/
def exStatePending : HomeState :=
  applyEvent (Event.requestClose TerminalType.npc)
    (applyEvent (Event.minimize TerminalType.npc)
      (applyEvent (Event.openT TerminalType.npc 0) (initialHomeState 0)))

theorem exStatePending_reachable : Reachable exStatePending :=
  Reachable.step _ (Reachable.step _ (Reachable.step _ (Reachable.init 0)))

/-- C3: whenever a confirmation request is pending for window w,
confirmClose resets the record of w to closed, not toolbar-minimized,
the single seed message for w (timestamped at the reset), scroll
position 0 — regardless of the prior message history — and clears the
confirmation dialog back to its empty state. -/
theorem confirmClose_resets_record (s : HomeState) (w : TerminalType) (now : Nat)
    (hpending : s.confirmationDialog.terminalType = some w) :
    ((handleConfirmClose now s).terminals.get w).isOpen = false ∧
    ((handleConfirmClose now s).terminals.get w).isToolbarMinimized = false ∧
    ((handleConfirmClose now s).terminals.get w).messages =
      [{ id := "1", content := getInitialMessage w
         sender := Sender.system, timestamp := now }] ∧
    ((handleConfirmClose now s).terminals.get w).scrollPosition = 0 ∧
    (handleConfirmClose now s).confirmationDialog = emptyConfirmationDialog := by
  obtain ⟨hrec, hdlg⟩ := confirmClose_record_reset s w now hpending
  rw [hrec]
  exact ⟨rfl, rfl, rfl, rfl, hdlg⟩

/-- Witness for C3 at a concrete reachable state with a pending request
for the npc terminal, whose record holds the npc seed message after the
confirm. -/
theorem confirmClose_resets_record_witness :
    exStatePending.confirmationDialog.terminalType = some TerminalType.npc ∧
    (((handleConfirmClose 9 exStatePending).terminals.get TerminalType.npc).isOpen = false ∧
     ((handleConfirmClose 9 exStatePending).terminals.get TerminalType.npc).isToolbarMinimized
        = false ∧
     ((handleConfirmClose 9 exStatePending).terminals.get TerminalType.npc).messages =
       [{ id := "1", content := getInitialMessage TerminalType.npc
          sender := Sender.system, timestamp := 9 }] ∧
     ((handleConfirmClose 9 exStatePending).terminals.get TerminalType.npc).scrollPosition = 0 ∧
     (handleConfirmClose 9 exStatePending).confirmationDialog = emptyConfirmationDialog) :=
  ⟨rfl, confirmClose_resets_record exStatePending TerminalType.npc 9 rfl⟩

/-- Counterexample for C6: re-running open on the already-open (and not
toolbar-minimized) default terminal re-stamps createdAt with the fresh
timestamp — the non-minimized branch of the handler always writes it —
so the record does not keep every field other than zIndex unchanged. -/
def exStateOpenDefault : HomeState :=
  applyEvent (Event.openT TerminalType.default 0) (initialHomeState 0)

theorem open_already_open_createdAt_cex :
    (exStateOpenDefault.terminals.get TerminalType.default).isOpen = true ∧
    (exStateOpenDefault.terminals.get TerminalType.default).isToolbarMinimized = false ∧
    (exStateOpenDefault.terminals.get TerminalType.default).createdAt = 0 ∧
    ((openChat TerminalType.default 5 exStateOpenDefault).terminals.get
        TerminalType.default).createdAt = 5 ∧
    (5 : Nat) ≠ 0 :=
  ⟨rfl, rfl, rfl, rfl, by decide⟩

/-- C6 amended: re-running open on a window that is open and not
toolbar-minimized re-focuses it (fresh z-index from the allocator) and
leaves isOpen, isToolbarMinimized, messages and scrollPosition
unchanged, but re-stamps createdAt with the current time; all other
windows and the rest of the page state are untouched. -/
theorem openChat_already_open (s : HomeState) (t : TerminalType) (now : Nat)
    (hopen : (s.terminals.get t).isOpen = true)
    (hmin : (s.terminals.get t).isToolbarMinimized = false) :
    ((openChat t now s).terminals.get t).isOpen = true ∧
    ((openChat t now s).terminals.get t).isToolbarMinimized = false ∧
    ((openChat t now s).terminals.get t).messages = (s.terminals.get t).messages ∧
    ((openChat t now s).terminals.get t).scrollPosition = (s.terminals.get t).scrollPosition ∧
    ((openChat t now s).terminals.get t).createdAt = now ∧
    ((openChat t now s).terminals.get t).zIndex = s.nextZIndex ∧
    (openChat t now s).nextZIndex = s.nextZIndex + 1 ∧
    (∀ u, u ≠ t → (openChat t now s).terminals.get u = s.terminals.get u) ∧
    (openChat t now s).activeFullscreen = s.activeFullscreen ∧
    (openChat t now s).confirmationDialog = s.confirmationDialog := by
  unfold openChat bringToFront
  dsimp only
  rw [if_neg (by rw [hmin]; exact Bool.false_ne_true)]
  refine ⟨?_, ?_, ?_, ?_, ?_, ?_, rfl, ?_, rfl, rfl⟩ <;>
    (try simp [Terminals.get_set_same, hopen, hmin])
  intro u hu
  simp [Terminals.get_set, hu]

/-- Witness for C6 amended at the concrete opened-default state. -/
theorem openChat_already_open_witness :
    ((exStateOpenDefault.terminals.get TerminalType.default).isOpen = true ∧
     (exStateOpenDefault.terminals.get TerminalType.default).isToolbarMinimized = false) ∧
    ((openChat TerminalType.default 5 exStateOpenDefault).terminals.get
        TerminalType.default).createdAt = 5 ∧
    ((openChat TerminalType.default 5 exStateOpenDefault).terminals.get
        TerminalType.default).messages =
      (exStateOpenDefault.terminals.get TerminalType.default).messages :=
  ⟨⟨rfl, rfl⟩,
   (openChat_already_open exStateOpenDefault TerminalType.default 5 rfl rfl).2.2.2.2.1,
   (openChat_already_open exStateOpenDefault TerminalType.default 5 rfl rfl).2.2.1⟩

/-- C7: for every window, opening, minimizing to the toolbar, and
opening again leaves the record messages and scroll position exactly as
they were after the first open (restore fidelity). -/
theorem open_minimize_open_restores (s : HomeState) (t : TerminalType) (n1 n2 : Nat) :
    ((openChat t n2 (minimizeToToolbar t (openChat t n1 s))).terminals.get t).messages =
      ((openChat t n1 s).terminals.get t).messages ∧
    ((openChat t n2 (minimizeToToolbar t (openChat t n1 s))).terminals.get t).scrollPosition =
      ((openChat t n1 s).terminals.get t).scrollPosition := by
  constructor
  · rw [openChat_messages, minimize_messages]
  · rw [openChat_scroll, minimize_scroll]

/-- C8: the z-index allocator is a single counter seeded at 20 (above
the static initial z-index 10 of every window); bringToFront stamps the
focused window with the current counter value, increments the counter,
and touches no other window; and in every reachable state every stamped
z-index is strictly below the counter, so each focus assigns a z-index
strictly greater than every previously assigned one. -/
theorem zIndex_allocator_monotone :
    (∀ ts0 : Nat, (initialHomeState ts0).nextZIndex = 20 ∧
        ∀ t, ((initialHomeState ts0).terminals.get t).zIndex = 10) ∧
    (∀ (s : HomeState) (t : TerminalType),
        ((bringToFront t s).terminals.get t).zIndex = s.nextZIndex ∧
        (bringToFront t s).nextZIndex = s.nextZIndex + 1 ∧
        ∀ u, u ≠ t → (bringToFront t s).terminals.get u = s.terminals.get u) ∧
    (∀ s : HomeState, Reachable s → ∀ t, (s.terminals.get t).zIndex < s.nextZIndex) := by
  refine ⟨?_, ?_, ?_⟩
  · intro ts0
    exact ⟨rfl, fun t => by cases t <;> rfl⟩
  · intro s t
    refine ⟨?_, rfl, ?_⟩
    · rw [bringToFront_get]
      simp
    · intro u hu
      rw [bringToFront_get]
      simp [hu]
  · intro s hr t
    exact (reachable_fullInv hr).zIndex_lt t

/-- Witness for C8 at a concrete reachable state: every window sits
below the allocator counter, and focusing stamps the counter value. -/
theorem zIndex_allocator_monotone_witness :
    ((exStateDN.terminals.get TerminalType.npc).zIndex < exStateDN.nextZIndex) ∧
    ((bringToFront TerminalType.npc exStateDN).terminals.get TerminalType.npc).zIndex =
      exStateDN.nextZIndex :=
  ⟨zIndex_allocator_monotone.2.2 exStateDN exStateDN_reachable TerminalType.npc,
   (zIndex_allocator_monotone.2.1 exStateDN TerminalType.npc).1⟩

/-- C9: saveState replaces the stored message list and scroll position
of the target record with the reported ones; it returns the state
unchanged when the reported values both equal the stored ones; and
running it twice with the same arguments mutates the state at most once
(the second run is the identity). -/
theorem saveState_noop_idempotent :
    (∀ (s : HomeState) (t : TerminalType) (m : List Message) (sc : Nat),
        ((saveTerminalState t m sc s).terminals.get t).messages = m ∧
        ((saveTerminalState t m sc s).terminals.get t).scrollPosition = sc) ∧
    (∀ (s : HomeState) (t : TerminalType) (m : List Message) (sc : Nat),
        (s.terminals.get t).messages = m → (s.terminals.get t).scrollPosition = sc →
        saveTerminalState t m sc s = s) ∧
    (∀ (s : HomeState) (t : TerminalType) (m : List Message) (sc : Nat),
        saveTerminalState t m sc (saveTerminalState t m sc s) = saveTerminalState t m sc s) := by
  have hsaved : ∀ (s : HomeState) (t : TerminalType) (m : List Message) (sc : Nat),
      ((saveTerminalState t m sc s).terminals.get t).messages = m ∧
      ((saveTerminalState t m sc s).terminals.get t).scrollPosition = sc := by
    intro s t m sc
    unfold saveTerminalState
    dsimp only
    split
    next hc => exact hc
    next => simp [Terminals.get_set_same]
  have hnoop : ∀ (s : HomeState) (t : TerminalType) (m : List Message) (sc : Nat),
      (s.terminals.get t).messages = m → (s.terminals.get t).scrollPosition = sc →
      saveTerminalState t m sc s = s := by
    intro s t m sc h1 h2
    unfold saveTerminalState
    dsimp only
    rw [if_pos ⟨h1, h2⟩]
  refine ⟨hsaved, hnoop, ?_⟩
  intro s t m sc
  exact hnoop _ t m sc (hsaved s t m sc).1 (hsaved s t m sc).2

/-- Witness for C9: saving the stored message list and scroll position
of the fresh default record is the identity, and a repeated save with
new content is also the identity on its second run. -/
theorem saveState_noop_idempotent_witness :
    saveTerminalState TerminalType.default
        ((initialHomeState 0).terminals.get TerminalType.default).messages 0
        (initialHomeState 0) = initialHomeState 0 ∧
    saveTerminalState TerminalType.npc [] 7
        (saveTerminalState TerminalType.npc [] 7 (initialHomeState 0)) =
      saveTerminalState TerminalType.npc [] 7 (initialHomeState 0) :=
  ⟨saveState_noop_idempotent.2.1 (initialHomeState 0) TerminalType.default _ 0 rfl rfl,
   saveState_noop_idempotent.2.2 (initialHomeState 0) TerminalType.npc [] 7⟩

/-- C10: in the group window, a non-empty user message is appended,
then the first delayed callback appends exactly one npc-sender reply,
and the nested second callback appends exactly one void-sender reply
strictly after it; starting from the single seed message the final list
has length 4 in the order seed, user, npc, void. -/
theorem groupChat_reply_order (input : String) (t0 t1 t2 p q ts : Nat)
    (h : inputIsBlank input = false) :
    groupSendSequence input t0 t1 t2 p q [groupSeedMessage ts] =
      [groupSeedMessage ts, groupUserMessage input t0, groupNpcReply p t1,
       groupVoidReply q t2] ∧
    (groupSendSequence input t0 t1 t2 p q [groupSeedMessage ts]).length = 4 ∧
    (groupSendSequence input t0 t1 t2 p q [groupSeedMessage ts]).map Message.sender =
      [Sender.system, Sender.user, Sender.npc, Sender.void] := by
  unfold groupSendSequence
  rw [h]
  exact ⟨rfl, rfl, rfl⟩

/-- Witness for C10 with the user input "hi" of the spec scenario. -/
theorem groupChat_reply_order_witness :
    inputIsBlank "hi" = false ∧
    (groupSendSequence "hi" 100 1100 1900 0 0 [groupSeedMessage 0]).length = 4 ∧
    (groupSendSequence "hi" 100 1100 1900 0 0 [groupSeedMessage 0]).map Message.sender =
      [Sender.system, Sender.user, Sender.npc, Sender.void] :=
  ⟨by decide, (groupChat_reply_order "hi" 100 1100 1900 0 0 0 (by decide)).2.1,
   (groupChat_reply_order "hi" 100 1100 1900 0 0 0 (by decide)).2.2⟩

/-- C2: activeFullscreen holds at most one window id; in every reachable
state it names an open window; minimizing the active fullscreen window
forces it back to none; and in every reachable state where the
confirmation dialog is open, confirming the destructive close leaves no
active fullscreen window (close requests are only raised from the
taskbar, which exists only when no window is fullscreen, and the modal
dialog blocks fullscreen entry until it is resolved). -/
theorem fullscreen_arbiter_invariants :
    (∀ (s : HomeState) (w w' : TerminalType),
        s.activeFullscreen = some w → s.activeFullscreen = some w' → w = w') ∧
    (∀ s : HomeState, Reachable s → ∀ w, s.activeFullscreen = some w →
        (s.terminals.get w).isOpen = true) ∧
    (∀ (s : HomeState) (w : TerminalType), s.activeFullscreen = some w →
        (minimizeToToolbar w s).activeFullscreen = none) ∧
    (∀ (s : HomeState) (now : Nat), Reachable s → s.confirmationDialog.isOpen = true →
        (handleConfirmClose now s).activeFullscreen = none) := by
  refine ⟨?_, ?_, ?_, ?_⟩
  · intro s w w' h1 h2
    rw [h1] at h2
    exact Option.some.inj h2
  · intro s hr w hw
    exact (reachable_fullInv hr).active_isOpen w hw
  · intro s w hw
    unfold minimizeToToolbar
    dsimp only
    rw [if_pos hw]
  · intro s now hr hopen
    have inv := reachable_fullInv hr
    cases hd : s.confirmationDialog.terminalType with
    | none => exact absurd hd (inv.open_hasTarget hopen)
    | some t =>
      have hact := inv.pending_noFullscreen t hd
      simp only [handleConfirmClose, hd]
      exact hact

/-- Witness for C2 at concrete reachable states: a fullscreen default
window is open and minimizing it clears the fullscreen slot, and
confirming the pending npc close leaves no fullscreen window. -/
theorem fullscreen_arbiter_invariants_witness :
    exStateDN.activeFullscreen = some TerminalType.default ∧
    (exStateDN.terminals.get TerminalType.default).isOpen = true ∧
    (minimizeToToolbar TerminalType.default exStateDN).activeFullscreen = none ∧
    exStatePending.confirmationDialog.isOpen = true ∧
    (handleConfirmClose 7 exStatePending).activeFullscreen = none :=
  ⟨rfl,
   fullscreen_arbiter_invariants.2.1 exStateDN exStateDN_reachable TerminalType.default rfl,
   fullscreen_arbiter_invariants.2.2.1 exStateDN TerminalType.default rfl,
   rfl,
   fullscreen_arbiter_invariants.2.2.2 exStatePending 7 exStatePending_reachable rfl⟩

/-- Counterexample for C4: the group entry of the initial terminals
record holds an empty message list, not exactly one seed message (the
group seed lives inside the GroupChatWindow component instead). -/
theorem group_record_empty_seed_cex :
    ((initialHomeState 0).terminals.get TerminalType.group).messages.length = 0 ∧
    (0 : Nat) ≠ 1 :=
  ⟨rfl, by decide⟩

/-- C4 amended: in every reachable state every open window has a
non-empty message list; the three terminal records are created holding
exactly one system-sender seed message while the group record is created
with an empty list (the GroupChatWindow component seeds its welcome
message internally when mounted without saved messages); destructive
close resets the target record to the single system seed message of its
window id. -/
theorem messages_nonempty_invariant :
    (∀ s : HomeState, Reachable s → ∀ t, (s.terminals.get t).isOpen = true →
        (s.terminals.get t).messages ≠ []) ∧
    (∀ (ts0 : Nat) (t : TerminalType), t ≠ TerminalType.group →
        ((initialHomeState ts0).terminals.get t).messages =
          [{ id := "1", content := getInitialMessage t
             sender := Sender.system, timestamp := ts0 }]) ∧
    (∀ ts0 : Nat, ((initialHomeState ts0).terminals.get TerminalType.group).messages = []) ∧
    (∀ (s : HomeState) (w : TerminalType) (now : Nat),
        s.confirmationDialog.terminalType = some w →
        ((handleConfirmClose now s).terminals.get w).messages =
          [{ id := "1", content := getInitialMessage w
             sender := Sender.system, timestamp := now }]) := by
  refine ⟨?_, ?_, ?_, ?_⟩
  · intro s hr t hopen
    have inv := reachable_fullInv hr
    cases t with
    | default => exact inv.msgs_default
    | npc => exact inv.msgs_npc
    | void => exact inv.msgs_void
    | group => exact inv.msgs_group (Or.inl hopen)
  · intro ts0 t hg
    cases t with
    | group => exact absurd rfl hg
    | default => rfl
    | npc => rfl
    | void => rfl
  · intro ts0
    rfl
  · intro s w now hpending
    rw [(confirmClose_record_reset s w now hpending).1]

/-- Witness for C4 amended at concrete inputs: the open npc window of a
reachable state has messages, the npc record is created with its seed,
and confirming the pending npc close resets it to the seed. -/
theorem messages_nonempty_invariant_witness :
    ((exStateDN.terminals.get TerminalType.npc).isOpen = true ∧
     (exStateDN.terminals.get TerminalType.npc).messages ≠ []) ∧
    ((initialHomeState 3).terminals.get TerminalType.npc).messages =
      [{ id := "1", content := getInitialMessage TerminalType.npc
         sender := Sender.system, timestamp := 3 }] ∧
    ((handleConfirmClose 9 exStatePending).terminals.get TerminalType.npc).messages =
      [{ id := "1", content := getInitialMessage TerminalType.npc
         sender := Sender.system, timestamp := 9 }] :=
  ⟨⟨rfl, messages_nonempty_invariant.1 exStateDN exStateDN_reachable TerminalType.npc rfl⟩,
   messages_nonempty_invariant.2.1 3 TerminalType.npc (by decide),
   messages_nonempty_invariant.2.2.2 exStatePending TerminalType.npc 9 rfl⟩

-- Branch characterizations of the primary cycleFullscreen and the
-- wraparound arithmetic of the fixed four-entry key list.

theorem cycleFullscreen_k1_open (d : Direction) (s : HomeState) (a k : TerminalType)
    (hact : s.activeFullscreen = some a)
    (hk : terminalTypes.getD (stepIndex d (tIndex a)) TerminalType.default = k)
    (h1 : (s.terminals.get k).isOpen = true) :
    cycleFullscreen d s = bringToFront k { s with activeFullscreen := some k } := by
  subst hk
  unfold cycleFullscreen
  rw [hact]
  dsimp only
  rw [if_pos h1]

theorem cycleFullscreen_k1_closed_k2_open (d : Direction) (s : HomeState)
    (a k1 k2 : TerminalType)
    (hact : s.activeFullscreen = some a)
    (hk1 : terminalTypes.getD (stepIndex d (tIndex a)) TerminalType.default = k1)
    (hk2 : terminalTypes.getD (stepIndex d (stepIndex d (tIndex a))) TerminalType.default = k2)
    (h1 : (s.terminals.get k1).isOpen = false)
    (h2 : (s.terminals.get k2).isOpen = true) :
    cycleFullscreen d s = bringToFront k2 { s with activeFullscreen := some k2 } := by
  subst hk1
  subst hk2
  unfold cycleFullscreen
  rw [hact]
  dsimp only
  rw [if_neg (by rw [h1]; exact Bool.false_ne_true), if_pos h2]

theorem cycleFullscreen_both_closed (d : Direction) (s : HomeState) (a k1 k2 : TerminalType)
    (hact : s.activeFullscreen = some a)
    (hk1 : terminalTypes.getD (stepIndex d (tIndex a)) TerminalType.default = k1)
    (hk2 : terminalTypes.getD (stepIndex d (stepIndex d (tIndex a))) TerminalType.default = k2)
    (h1 : (s.terminals.get k1).isOpen = false)
    (h2 : (s.terminals.get k2).isOpen = false) :
    cycleFullscreen d s = s := by
  subst hk1
  subst hk2
  unfold cycleFullscreen
  rw [hact]
  dsimp only
  rw [if_neg (by rw [h1]; exact Bool.false_ne_true),
      if_neg (by rw [h2]; exact Bool.false_ne_true)]

theorem step_next_prev (a : TerminalType) :
    terminalTypes.getD
      (stepIndex Direction.prev
        (tIndex (terminalTypes.getD (stepIndex Direction.next (tIndex a))
          TerminalType.default)))
      TerminalType.default = a := by
  cases a <;> rfl

theorem step_prev_of_next_next (a : TerminalType) :
    terminalTypes.getD
      (stepIndex Direction.prev
        (tIndex (terminalTypes.getD (stepIndex Direction.next (stepIndex Direction.next (tIndex a)))
          TerminalType.default)))
      TerminalType.default =
    terminalTypes.getD (stepIndex Direction.next (tIndex a)) TerminalType.default := by
  cases a <;> rfl

theorem step_next_next_prev_prev (a : TerminalType) :
    terminalTypes.getD
      (stepIndex Direction.prev
        (stepIndex Direction.prev
          (tIndex (terminalTypes.getD
            (stepIndex Direction.next (stepIndex Direction.next (tIndex a)))
            TerminalType.default))))
      TerminalType.default = a := by
  cases a <;> rfl

/-- Counterexample for C5: with the default and npc terminals open and
the npc terminal fullscreen, cycle(next) is a no-op (both forward
candidates void and group are closed) but cycle(prev) then moves to the
default terminal, so the composition does not return to npc. -/
theorem cycle_next_prev_roundtrip_cex :
    exStateND.activeFullscreen = some TerminalType.npc ∧
    (exStateND.terminals.get TerminalType.npc).isOpen = true ∧
    (exStateND.terminals.get TerminalType.default).isOpen = true ∧
    (cycleFullscreen Direction.prev (cycleFullscreen Direction.next exStateND)).activeFullscreen
      = some TerminalType.default ∧
    TerminalType.default ≠ TerminalType.npc :=
  ⟨rfl, rfl, rfl, rfl, by decide⟩

/-- C5 amended: the next-then-prev composition returns to the original
active window id whenever cycle(next) actually moves, i.e. at least one
of the two forward candidates (in the fixed default, npc, void, group
cycle) is open; when both are closed the next call is a no-op and the
prev call may move backward to a different open window instead. -/
theorem cycle_next_prev_roundtrip (s : HomeState) (a : TerminalType)
    (hact : s.activeFullscreen = some a)
    (hopen : (s.terminals.get a).isOpen = true)
    (hmove :
      (s.terminals.get (terminalTypes.getD (stepIndex Direction.next (tIndex a))
          TerminalType.default)).isOpen = true ∨
      (s.terminals.get (terminalTypes.getD
          (stepIndex Direction.next (stepIndex Direction.next (tIndex a)))
          TerminalType.default)).isOpen = true) :
    (cycleFullscreen Direction.prev (cycleFullscreen Direction.next s)).activeFullscreen
      = some a := by
  cases a with
  | default =>
    by_cases h1 : (s.terminals.get TerminalType.npc).isOpen = true
    · rw [cycleFullscreen_k1_open Direction.next s TerminalType.default TerminalType.npc
          hact rfl h1]
      rw [cycleFullscreen_k1_open Direction.prev
          (bringToFront TerminalType.npc { s with activeFullscreen := some TerminalType.npc })
          TerminalType.npc TerminalType.default rfl rfl
          (by rw [bringToFront_get_isOpen]; exact hopen)]
      rfl
    · have h1f : (s.terminals.get TerminalType.npc).isOpen = false := Bool.eq_false_iff.mpr h1
      have h2 : (s.terminals.get TerminalType.void).isOpen = true := hmove.resolve_left h1
      rw [cycleFullscreen_k1_closed_k2_open Direction.next s TerminalType.default
          TerminalType.npc TerminalType.void hact rfl rfl h1f h2]
      rw [cycleFullscreen_k1_closed_k2_open Direction.prev
          (bringToFront TerminalType.void { s with activeFullscreen := some TerminalType.void })
          TerminalType.void TerminalType.npc TerminalType.default rfl rfl rfl
          (by rw [bringToFront_get_isOpen]; exact h1f)
          (by rw [bringToFront_get_isOpen]; exact hopen)]
      rfl
  | npc =>
    by_cases h1 : (s.terminals.get TerminalType.void).isOpen = true
    · rw [cycleFullscreen_k1_open Direction.next s TerminalType.npc TerminalType.void
          hact rfl h1]
      rw [cycleFullscreen_k1_open Direction.prev
          (bringToFront TerminalType.void { s with activeFullscreen := some TerminalType.void })
          TerminalType.void TerminalType.npc rfl rfl
          (by rw [bringToFront_get_isOpen]; exact hopen)]
      rfl
    · have h1f : (s.terminals.get TerminalType.void).isOpen = false := Bool.eq_false_iff.mpr h1
      have h2 : (s.terminals.get TerminalType.group).isOpen = true := hmove.resolve_left h1
      rw [cycleFullscreen_k1_closed_k2_open Direction.next s TerminalType.npc
          TerminalType.void TerminalType.group hact rfl rfl h1f h2]
      rw [cycleFullscreen_k1_closed_k2_open Direction.prev
          (bringToFront TerminalType.group { s with activeFullscreen := some TerminalType.group })
          TerminalType.group TerminalType.void TerminalType.npc rfl rfl rfl
          (by rw [bringToFront_get_isOpen]; exact h1f)
          (by rw [bringToFront_get_isOpen]; exact hopen)]
      rfl
  | void =>
    by_cases h1 : (s.terminals.get TerminalType.group).isOpen = true
    · rw [cycleFullscreen_k1_open Direction.next s TerminalType.void TerminalType.group
          hact rfl h1]
      rw [cycleFullscreen_k1_open Direction.prev
          (bringToFront TerminalType.group { s with activeFullscreen := some TerminalType.group })
          TerminalType.group TerminalType.void rfl rfl
          (by rw [bringToFront_get_isOpen]; exact hopen)]
      rfl
    · have h1f : (s.terminals.get TerminalType.group).isOpen = false := Bool.eq_false_iff.mpr h1
      have h2 : (s.terminals.get TerminalType.default).isOpen = true := hmove.resolve_left h1
      rw [cycleFullscreen_k1_closed_k2_open Direction.next s TerminalType.void
          TerminalType.group TerminalType.default hact rfl rfl h1f h2]
      rw [cycleFullscreen_k1_closed_k2_open Direction.prev
          (bringToFront TerminalType.default
            { s with activeFullscreen := some TerminalType.default })
          TerminalType.default TerminalType.group TerminalType.void rfl rfl rfl
          (by rw [bringToFront_get_isOpen]; exact h1f)
          (by rw [bringToFront_get_isOpen]; exact hopen)]
      rfl
  | group =>
    by_cases h1 : (s.terminals.get TerminalType.default).isOpen = true
    · rw [cycleFullscreen_k1_open Direction.next s TerminalType.group TerminalType.default
          hact rfl h1]
      rw [cycleFullscreen_k1_open Direction.prev
          (bringToFront TerminalType.default
            { s with activeFullscreen := some TerminalType.default })
          TerminalType.default TerminalType.group rfl rfl
          (by rw [bringToFront_get_isOpen]; exact hopen)]
      rfl
    · have h1f : (s.terminals.get TerminalType.default).isOpen = false :=
        Bool.eq_false_iff.mpr h1
      have h2 : (s.terminals.get TerminalType.npc).isOpen = true := hmove.resolve_left h1
      rw [cycleFullscreen_k1_closed_k2_open Direction.next s TerminalType.group
          TerminalType.default TerminalType.npc hact rfl rfl h1f h2]
      rw [cycleFullscreen_k1_closed_k2_open Direction.prev
          (bringToFront TerminalType.npc { s with activeFullscreen := some TerminalType.npc })
          TerminalType.npc TerminalType.default TerminalType.group rfl rfl rfl
          (by rw [bringToFront_get_isOpen]; exact h1f)
          (by rw [bringToFront_get_isOpen]; exact hopen)]
      rfl

/-- Witness for C5 amended: from the reachable state with default
fullscreen and npc also open, next moves to npc and prev returns to
default. -/
theorem cycle_next_prev_roundtrip_witness :
    exStateDN.activeFullscreen = some TerminalType.default ∧
    (exStateDN.terminals.get TerminalType.default).isOpen = true ∧
    (exStateDN.terminals.get TerminalType.npc).isOpen = true ∧
    (cycleFullscreen Direction.prev (cycleFullscreen Direction.next exStateDN)).activeFullscreen
      = some TerminalType.default :=
  ⟨rfl, rfl, rfl,
   cycle_next_prev_roundtrip exStateDN TerminalType.default rfl rfl (Or.inl rfl)⟩

-- List lemmas relating the mapped key list of the variant cycle to the
-- underlying open-terminal list.

theorem indexOf_term_map (l : List TerminalType) (a : TerminalType) :
    (l.map ExtKey.term).indexOf (ExtKey.term a) = l.indexOf a := by
  induction l with
  | nil => rfl
  | cons x xs ih =>
    by_cases hxa : x = a
    · subst hxa
      simp [List.indexOf_cons_self]
    · rw [List.map_cons, List.indexOf_cons_ne _ (by simp [hxa]),
        List.indexOf_cons_ne _ hxa, ih]

theorem getD_term_map (l : List TerminalType) (i : Nat) (h : i < l.length) :
    (l.map ExtKey.term).getD i ExtKey.v2 = ExtKey.term (l.getD i TerminalType.default) := by
  induction l generalizing i with
  | nil => simp at h
  | cons x xs ih =>
    cases i with
    | zero => rfl
    | succ n =>
      simp only [List.map_cons, List.getD_cons_succ]
      exact ih n (by simpa using h)

/-- The wraparound index step of the claimed eligibility traversal:
(i + 1) mod n for next, (i - 1) mod n for prev (written (i + n - 1) mod
n on naturals, equal for the non-negative i that occur). -/
def wrapStep (d : Direction) (i n : Nat) : Nat :=
  match d with
  | Direction.next => (i + 1) % n
  | Direction.prev => (i + n - 1) % n

theorem availableFullscreenKeys_of_v2_closed (s : HomeStateV)
    (hv2 : s.isTermWinV2Open = false) :
    availableFullscreenKeys s = (openTerminalKeys s).map ExtKey.term := by
  simp [availableFullscreenKeys, hv2]

/-- Counterexample for C1: in the reachable state with the default and
npc terminals open and default fullscreen, the eligibility list of the
claim is [default, npc] with two entries and default at index 0, so
cycle(prev) should activate the entry at index (0 - 1) mod 2 = 1, the
npc terminal; the primary cycleFullscreen of src/app/page.tsx instead
steps through the fixed four-entry list, finds group and void closed,
and leaves the state unchanged with default still active. -/
theorem cycleFullscreen_eligible_list_cex :
    (terminalTypes.filter (fun k => (exStateDN.terminals.get k).isOpen)) =
      [TerminalType.default, TerminalType.npc] ∧
    exStateDN.activeFullscreen = some TerminalType.default ∧
    (cycleFullscreen Direction.prev exStateDN).activeFullscreen = some TerminalType.default ∧
    TerminalType.default ≠ TerminalType.npc :=
  ⟨rfl, rfl, rfl, by decide⟩

/-- C1 amended: the eligibility-list behavior holds for the variant
cycleFullscreen of src/types/terminal-types.ts (with the extra V2
instance closed): the eligible keys are exactly the open windows in
declaration order; the call is a no-op when no window is fullscreen or
fewer than two keys are eligible; otherwise, with the active window at
index i of the eligible list, it activates and focuses the eligible
entry at index (i + 1) mod n for next and (i - 1) mod n for prev.  The
primary cycleFullscreen of src/app/page.tsx does not compute this list
(see the counterexample). -/
theorem cycleFullscreenV_follows_eligible_list (s : HomeStateV) (d : Direction)
    (hv2 : s.isTermWinV2Open = false) :
    (s.activeFullscreen = none → cycleFullscreenV d s = s) ∧
    ((openTerminalKeys s).length < 2 → cycleFullscreenV d s = s) ∧
    (∀ (a : TerminalType) (i : Nat) (b : TerminalType),
      s.activeFullscreen = some (ExtKey.term a) →
      2 ≤ (openTerminalKeys s).length →
      (openTerminalKeys s).indexOf a = i →
      i < (openTerminalKeys s).length →
      (openTerminalKeys s).getD (wrapStep d i (openTerminalKeys s).length)
        TerminalType.default = b →
      cycleFullscreenV d s =
        bringToFrontV b { s with activeFullscreen := some (ExtKey.term b) }) := by
  have hkeys := availableFullscreenKeys_of_v2_closed s hv2
  refine ⟨?_, ?_, ?_⟩
  · intro h
    unfold cycleFullscreenV
    rw [h]
  · intro hlt
    have hlt' : (availableFullscreenKeys s).length < 2 := by
      rw [hkeys, List.length_map]
      exact hlt
    unfold cycleFullscreenV
    cases ha : s.activeFullscreen with
    | none => rfl
    | some active =>
      dsimp only
      rw [if_pos hlt']
  · intro a i b hact h2 hidx hlt hb
    have hn2 : ¬(availableFullscreenKeys s).length < 2 := by
      rw [hkeys, List.length_map]
      omega
    have hio : (availableFullscreenKeys s).indexOf (ExtKey.term a) =
        (openTerminalKeys s).indexOf a := by
      rw [hkeys, indexOf_term_map]
    have hilt : (availableFullscreenKeys s).indexOf (ExtKey.term a) <
        (availableFullscreenKeys s).length := by
      rw [hio, hidx, hkeys, List.length_map]
      exact hlt
    have hwrap : wrapStep d ((availableFullscreenKeys s).indexOf (ExtKey.term a))
        ((availableFullscreenKeys s).length) =
        wrapStep d i ((openTerminalKeys s).length) := by
      rw [hio, hidx, hkeys, List.length_map]
    have hwlt : wrapStep d i ((openTerminalKeys s).length) < (openTerminalKeys s).length := by
      cases d <;> exact Nat.mod_lt _ (by omega)
    have hgd : (availableFullscreenKeys s).getD
        (wrapStep d ((availableFullscreenKeys s).indexOf (ExtKey.term a))
          ((availableFullscreenKeys s).length)) ExtKey.v2 = ExtKey.term b := by
      rw [hwrap, hkeys, getD_term_map _ _ hwlt, hb]
    unfold cycleFullscreenV
    rw [hact]
    dsimp only
    rw [if_neg hn2, if_pos hilt]
    cases d with
    | next =>
      rw [show ((availableFullscreenKeys s).indexOf (ExtKey.term a) + 1) %
            (availableFullscreenKeys s).length =
          wrapStep Direction.next ((availableFullscreenKeys s).indexOf (ExtKey.term a))
            ((availableFullscreenKeys s).length) from rfl, hgd]
    | prev =>
      rw [show ((availableFullscreenKeys s).indexOf (ExtKey.term a) +
            (availableFullscreenKeys s).length - 1) % (availableFullscreenKeys s).length =
          wrapStep Direction.prev ((availableFullscreenKeys s).indexOf (ExtKey.term a))
            ((availableFullscreenKeys s).length) from rfl, hgd]

/-- A concrete variant-page state: same terminals as exStateDN (default
and npc open), default fullscreen, V2 closed. -/
def exStateV : HomeStateV :=
  { terminals := exStateDN.terminals
    activeFullscreen := some (ExtKey.term TerminalType.default)
    nextZIndex := 23
    isTermWinV2Open := false
    termWinV2ZIndex := 15 }

/-- Witness for C1 amended: on the concrete variant state the eligible
list is [default, npc] and cycle(prev) from default activates and
focuses npc, the entry at index (0 - 1) mod 2 = 1. -/
theorem cycleFullscreenV_follows_eligible_list_witness :
    openTerminalKeys exStateV = [TerminalType.default, TerminalType.npc] ∧
    cycleFullscreenV Direction.prev exStateV =
      bringToFrontV TerminalType.npc
        { exStateV with activeFullscreen := some (ExtKey.term TerminalType.npc) } :=
  ⟨rfl,
   (cycleFullscreenV_follows_eligible_list exStateV Direction.prev rfl).2.2
     TerminalType.default 0 TerminalType.npc rfl (by decide) rfl (by decide) rfl⟩
